import Mathlib

/-!
Shallow embedding of the MCP multi-agent orchestrator (Python repository):
core data structures (`src/core/data_structures.py`), the orchestrator's
result analyzer and dynamic router (`src/core/orchestrator.py`), the
unit-test output parser (`src/memory/unit_test_memory_manager.py`) and the
agent communication memory (`src/memory/agent_communication_memory.py`),
together with theorems checking the specification's claims about them.
-/

set_option autoImplicit false

namespace MCPAgent

/-! ## Python-style primitives -/

/-- Does `pat` occur as a contiguous run inside the character list? -/
def charsContain (pat : List Char) : List Char → Bool
  | [] => pat.isEmpty
  | c :: cs => pat.isPrefixOf (c :: cs) || charsContain pat cs

/-- Python's `s.startswith(pre)`, on the underlying character lists. -/
def pyStartsWith (s pre : String) : Bool :=
  pre.toList.isPrefixOf s.toList

/-- Python's `s.lower()` (ASCII case mapping, which is all the scanned
keywords need). -/
def pyLower (s : String) : String :=
  ⟨s.toList.map Char.toLower⟩

/-- Python's `s.strip()`: drop whitespace from both ends. -/
def pyTrim (s : String) : String :=
  ⟨((s.toList.dropWhile Char.isWhitespace).reverse.dropWhile Char.isWhitespace).reverse⟩

/-- Split a character list at every occurrence of the separator character
(Python's `s.split(sep)` for a one-character separator: `[""]` on the empty
string, empty fields preserved). -/
def splitOnChar (sep : Char) : List Char → List (List Char)
  | [] => [[]]
  | c :: cs =>
    if c == sep then [] :: splitOnChar sep cs
    else
      match splitOnChar sep cs with
      | [] => [[c]]
      | g :: gs => (c :: g) :: gs

/-- Python's `s.split(sep)` for a one-character separator, on strings. -/
def pySplitChar (sep : Char) (s : String) : List String :=
  (splitOnChar sep s.toList).map (fun cs => ⟨cs⟩)

/-- Python's `pat in s` substring test. -/
def strContains (s pat : String) : Bool :=
  charsContain pat.toList s.toList

/-- First-match lookup on an association list (the semantics of a Python dict
whose entries are listed in insertion order). -/
def alLookup {β : Type} : List (String × β) → String → Option β
  | [], _ => none
  | p :: d, k => if p.1 == k then some p.2 else alLookup d k

/-- Python dict read `d.get(k, default)` on an association list. -/
def pyGetD {β : Type} (d : List (String × β)) (k : String) (v : β) : β :=
  (alLookup d k).getD v

/-- Python dict write `d[k] = v` on an association list: overwrite the entry if the
key is present, append it otherwise. -/
def pyDictSet {β : Type} (d : List (String × β)) (k : String) (v : β) : List (String × β) :=
  if d.any (fun p => p.1 == k) then
    d.map (fun p => if p.1 == k then (k, v) else p)
  else
    d ++ [(k, v)]

/-- Python dict membership `k in d`. -/
def pyMem {β : Type} (d : List (String × β)) (k : String) : Bool :=
  d.any (fun p => p.1 == k)

/-! ## `src/core/data_structures.py` -/

/-- `NodeState` enumeration. -/
inductive NodeState where
  | not_started
  | in_progress
  | completed
  | failed
  | retrying
deriving DecidableEq, Repr

/-- The `.value` string of each `NodeState` member. -/
def NodeState.value : NodeState → String
  | .not_started => "not_started"
  | .in_progress => "in_progress"
  | .completed => "completed"
  | .failed => "failed"
  | .retrying => "retrying"

/-- Entry appended to `TaskLedger.error_history` by the router
(`time.time()` timestamp omitted: wall-clock time is outside the embedding). -/
structure ErrorInfo where
  source : String
  errors : List String
  test_output : String
deriving DecidableEq, Repr

/-- `TaskLedger` dataclass.  Dict-valued fields are association lists; the
`error_history` attribute is installed dynamically by the router (`hasattr`
guard in `_get_next_executable_nodes`), so it is carried here with default `[]`. -/
structure TaskLedger where
  original_task : String := ""
  facts : List String := []
  guesses : List String := []
  plan : List String := []
  agent_capabilities : List (String × String) := []
  failed_paths : List String := []
  project_config : List (String × String) := []
  error_history : List ErrorInfo := []

/-- `TaskLedger.set_project_config` (default `base_dir` at call sites is
"/Users/jabez/output"): replaces `project_config` wholesale. -/
def TaskLedger.set_project_config (tl : TaskLedger) (project_name main_file test_file base_dir : String) :
    TaskLedger :=
  { tl with project_config :=
      [("project_name", project_name),
       ("main_file", main_file),
       ("test_file", test_file),
       ("base_dir", base_dir),
       ("main_file_path", base_dir ++ "/" ++ main_file),
       ("test_file_path", base_dir ++ "/" ++ test_file)] }

/-- `TaskLedger.get_file_path`. -/
def TaskLedger.get_file_path (tl : TaskLedger) (file_type : String) : String :=
  if file_type == "main" then
    pyGetD tl.project_config "main_file_path" "/Users/jabez/output/main.py"
  else if file_type == "test" then
    pyGetD tl.project_config "test_file_path" "/Users/jabez/output/test_main.py"
  else
    pyGetD tl.project_config "base_dir" "/Users/jabez/output" ++ "/" ++ file_type

/-- A freshly constructed `TaskLedger` (all dataclass defaults). -/
def TaskLedger.init : TaskLedger := {}

/-- `ProgressLedger` dataclass (timestamps in `execution_history` omitted;
each history entry is the `(node, state.value)` pair that
`update_node_state` records). -/
structure ProgressLedger where
  node_states : List (String × NodeState) := []
  execution_history : List (String × String) := []
  current_active_nodes : List String := []
  stall_count : Int := 0
  retry_counts : List (String × Nat) := []

/-- `ProgressLedger.update_node_state`. -/
def ProgressLedger.update_node_state (pl : ProgressLedger) (node_name : String) (state : NodeState) :
    ProgressLedger :=
  { pl with
    node_states := pyDictSet pl.node_states node_name state,
    execution_history := pl.execution_history ++ [(node_name, state.value)] }

/-- `ProgressLedger.increment_retry` (defined in `data_structures.py`; the
orchestrator under `src/core` never calls it). -/
def ProgressLedger.increment_retry (pl : ProgressLedger) (node_name : String) : ProgressLedger :=
  { pl with retry_counts := pyDictSet pl.retry_counts node_name (pyGetD pl.retry_counts node_name 0 + 1) }

/-! ## `_analyze_execution_result` (`src/core/orchestrator.py`) -/

/-- An `autogen` `Response`: the main chat-message content (absent when
`chat_message` is `None`) and the contents of `inner_messages`. -/
structure AgentResponse where
  chat_message : Option String
  inner_messages : List String

/-- State of the test-report artifact at `/Users/jabez/output/test_report.json`:
missing, present but unreadable/invalid JSON, or a readable report whose
`summary` carries the given `failures` and `errors` counts. -/
inductive ReportFile where
  | absent
  | unreadable
  | valid (failures errors : Nat)
deriving DecidableEq, Repr

/-- The `completion_markers` table of `_analyze_execution_result`. -/
def completion_markers (node_name : String) : List String :=
  if node_name == "CodePlanningAgent" then ["PLANNING_COMPLETE"]
  else if node_name == "FunctionWritingAgent" then ["CODING_COMPLETE", "Successfully wrote content"]
  else if node_name == "TestGenerationAgent" then ["TESTING_COMPLETE", "Successfully wrote content"]
  else if node_name == "UnitTestAgent" then ["UNIT_TESTING_COMPLETE"]
  else if node_name == "RefactoringAgent" then ["REFACTORING_COMPLETE"]
  else if node_name == "CodeScanningAgent" then ["SCANNING_COMPLETE"]
  else if node_name == "ProjectStructureAgent" then ["PROJECT_STRUCTURE_COMPLETE"]
  else []

/-- `" ".join(filter(None, all_content))`. -/
def combinedContent (all_content : List String) : String :=
  String.intercalate " " (all_content.filter (fun s => s ≠ ""))

/-- The `all_content` list collected from a response: the chat message content
(when present) followed by the inner-message contents. -/
def responseAllContent (response : AgentResponse) : List String :=
  (match response.chat_message with
   | some c => [c]
   | none => []) ++ response.inner_messages

/-- The inner `try` block of the `UnitTestAgent` branch of
`_analyze_execution_result`.  In the source, `failure_reasons.append(...)` is
executed before the local `failure_reasons = []` binding is ever assigned, so
each path that detects a failure raises `UnboundLocalError` instead of
completing; a missing/unparseable report raises inside `json.load`.  A raised
exception is modelled as `.error` and is caught by the branch's
`except Exception`, which sets `success = True`. -/
def unitTestReportCheck (combined_content : String) (report : ReportFile) : Except String Bool :=
  match report with
  | .valid failures errors =>
    if failures > 0 || errors > 0 then
      .error "UnboundLocalError: local variable referenced before assignment"
    else
      .ok true
  | .unreadable => .error "json.load failed"
  | .absent =>
    if ["failed", "error", "assertion"].any (fun k => strContains (pyLower combined_content) k) then
      .error "UnboundLocalError: local variable referenced before assignment"
    else
      .ok true

/-- Python `repr` of a list of strings, as interpolated by the f-strings that
build the failure-reason messages. -/
def pyStrListRepr (l : List String) : String :=
  let q := String.singleton (Char.ofNat 39)
  "[" ++ String.intercalate ", " (l.map (fun s => q ++ s ++ q)) ++ "]"

/-- Result dictionary of `_analyze_execution_result`. -/
structure ExecAnalysis where
  success : Bool
  failure_reasons : List String
  message_content : String
  has_completion_marker : Bool
deriving DecidableEq, Repr

/-- `_analyze_execution_result`: combine the response contents, look for the
node's completion markers, and decide success.  For `UnitTestAgent` with a
marker the test-report check runs (see `unitTestReportCheck`); any exception
it raises is swallowed and success falls back to `True`. -/
def analyzeExecutionResult (node_name : String) (response : AgentResponse)
    (report : ReportFile) : ExecAnalysis :=
  let all_content := responseAllContent response
  let combined_content := combinedContent all_content
  let expected_markers := completion_markers node_name
  let has_completion_marker := expected_markers.any (fun m => strContains combined_content m)
  let success :=
    if has_completion_marker then
      if node_name == "UnitTestAgent" then
        match unitTestReportCheck combined_content report with
        | .ok b => b
        | .error _ => true
      else true
    else decide (combined_content.length > 50)
  let failure_reasons :=
    if !has_completion_marker && combined_content.length ≤ 50 then
      ["缺少完成标记: " ++ pyStrListRepr expected_markers ++ " 且输出内容过短"]
    else if !has_completion_marker then
      ["缺少完成标记: " ++ pyStrListRepr expected_markers]
    else []
  { success := success,
    failure_reasons := failure_reasons,
    message_content := combined_content,
    has_completion_marker := has_completion_marker }

/-! ## The dynamic router `_get_next_executable_nodes` (`src/core/orchestrator.py`) -/

/-- The execution-result dictionary returned by `_execute_node_with_monitoring`:
its top-level `success` flag and the `analysis` produced by
`_analyze_execution_result`. -/
structure ExecutionResult where
  success : Bool
  analysis : ExecAnalysis
deriving DecidableEq, Repr

/-- Orchestrator state touched by the router: the participant names, the
`max_retries` bound, the progress ledger and the task ledger. -/
structure OrchState where
  participants : List String
  max_retries : Nat
  progress : ProgressLedger
  task_ledger : TaskLedger

/-- `self.progress_ledger.retry_counts.get(node_name, 0)`. -/
def OrchState.retryCount (st : OrchState) (node_name : String) : Nat :=
  pyGetD st.progress.retry_counts node_name 0

/-- The `has_test_errors` test of the UnitTestAgent-failure branch. -/
def hasTestErrors (analysis : ExecAnalysis) : Bool :=
  strContains (pyLower analysis.message_content) "failed" ||
  strContains (pyLower analysis.message_content) "error" ||
  strContains (pyLower analysis.message_content) "assertion" ||
  strContains (pyLower analysis.message_content) "traceback" ||
  decide (analysis.failure_reasons.length > 0)

/-- `_find_alternative_nodes`: static per-worker fallback table, filtered by
membership in `self.participants`. -/
def findAlternativeNodes (failed_node : String) (participants : List String) : List String :=
  if failed_node == "FunctionWritingAgent" then
    if participants.contains "CodePlanningAgent" then ["CodePlanningAgent"] else []
  else if failed_node == "TestGenerationAgent" then
    if participants.contains "FunctionWritingAgent" then ["FunctionWritingAgent"] else []
  else if failed_node == "UnitTestAgent" then
    if participants.contains "TestGenerationAgent" then ["TestGenerationAgent"] else []
  else []

/-- The `normal_flow_sequence` list. -/
def normal_flow_sequence : List String :=
  ["CodePlanningAgent", "FunctionWritingAgent", "TestGenerationAgent",
   "UnitTestAgent", "CodeScanningAgent", "ProjectStructureAgent"]

/-- The tail of the router: `normal_flow_sequence.index(current_node)` and the
successor lookup; `ValueError` (node not in the sequence) and a missing
successor both end in `return []`. -/
def normalFlowNext (current_node : String) : List String :=
  match normal_flow_sequence.indexOf? current_node with
  | some i =>
    match normal_flow_sequence[i + 1]? with
    | some nxt => [nxt]
    | none => []
  | none => []

/-- The general part of `_get_next_executable_nodes` reached when no special
`if/elif` branch returned: retry on failure while `retry_count <= max_retries`,
otherwise use the alternatives table when it is non-empty, and finally fall
through to the predefined normal flow. -/
def generalFlow (st : OrchState) (current_node : String) (execution_result : ExecutionResult) :
    OrchState × List String :=
  if !execution_result.success then
    if st.retryCount current_node ≤ st.max_retries then
      (st, [current_node])
    else
      let alternative_nodes := findAlternativeNodes current_node st.participants
      if alternative_nodes ≠ [] then (st, alternative_nodes)
      else (st, normalFlowNext current_node)
  else (st, normalFlowNext current_node)

/-- `_get_next_executable_nodes`: the special `if/elif` chain for the
UnitTestAgent failure, the RefactoringAgent success and the UnitTestAgent
success, falling through into `generalFlow` otherwise (including when the
first branch neither routed to the refactorer nor retried). -/
def getNextExecutableNodes (st : OrchState) (current_node : String)
    (execution_result : ExecutionResult) : OrchState × List String :=
  if current_node == "UnitTestAgent" && !execution_result.success then
    let failure_reasons := execution_result.analysis.failure_reasons
    let message_content := execution_result.analysis.message_content
    if hasTestErrors execution_result.analysis then
      let error_info : ErrorInfo :=
        { source := "UnitTestAgent", errors := failure_reasons, test_output := message_content }
      ({ st with task_ledger :=
           { st.task_ledger with error_history := st.task_ledger.error_history ++ [error_info] } },
       ["RefactoringAgent"])
    else if st.retryCount current_node ≤ st.max_retries then
      (st, [current_node])
    else
      generalFlow st current_node execution_result
  else if current_node == "RefactoringAgent" && execution_result.success then
    let st :=
      if pyMem st.progress.retry_counts "UnitTestAgent" then
        { st with progress :=
            { st.progress with retry_counts := pyDictSet st.progress.retry_counts "UnitTestAgent" 0 } }
      else st
    let st :=
      { st with progress :=
          { st.progress with node_states := pyDictSet st.progress.node_states "UnitTestAgent" NodeState.not_started } }
    (st, ["UnitTestAgent"])
  else if current_node == "UnitTestAgent" && execution_result.success then
    (st, ["CodeScanningAgent"])
  else
    generalFlow st current_node execution_result

/-! ## State-mutating events of the inner loop

`node_states` is written in the orchestrator only at the four kinds of call
sites: `update_node_state(node, IN_PROGRESS)` at the start of
`_execute_node_with_monitoring`, `update_node_state(node, COMPLETED)` on a
successful analysis, `update_node_state(node, FAILED)` on a failed analysis /
reselection / exception, and the direct `node_states["UnitTestAgent"] =
NodeState.NOT_STARTED` assignment inside the router's refactor-success branch. -/
inductive StepKind where
  | markInProgress (node_name : String)
  | markCompleted (node_name : String)
  | markFailed (node_name : String)
  | route (current_node : String) (execution_result : ExecutionResult)

/-- Effect of each event on the orchestrator state. -/
def stepEffect (st : OrchState) : StepKind → OrchState
  | .markInProgress n => { st with progress := st.progress.update_node_state n .in_progress }
  | .markCompleted n => { st with progress := st.progress.update_node_state n .completed }
  | .markFailed n => { st with progress := st.progress.update_node_state n .failed }
  | .route c r => (getNextExecutableNodes st c r).1

/-! ## Stall counting (`_execute_node_with_monitoring` / `_inner_loop_execution`) -/

/-- Effect of one monitored node execution on `stall_count`:
`max(0, stall_count - 1)` on success, `stall_count + 1` on failure (the
failure increment is the same on the reselection and exception paths). -/
def stallAfterExecution (stall_count : Int) (success : Bool) : Int :=
  if success then max 0 (stall_count - 1) else stall_count + 1

/-- The inner loop `while current_nodes and stall_count < max_stalls`,
projected onto `stall_count`: each round executes one node (its success is the
next element of `outcomes`) when the guard holds, and the loop exits
otherwise. -/
def innerLoopStalls (max_stalls : Int) (stall_count : Int) : List Bool → Int
  | [] => stall_count
  | outcome :: rest =>
    if stall_count < max_stalls then
      innerLoopStalls max_stalls (stallAfterExecution stall_count outcome) rest
    else stall_count

/-! ## `_intelligent_node_selection` / `_analyze_progress_ledger` -/

/-- The value a key of the first extracted JSON object holds, as the
selector's `obj.get(key, {}).get('answer', d)` chain observes it:
the key is absent (the outer `.get` supplies the `{}` default, the inner
`.get` then yields its default), the value is a dict (the inner `.get`
yields its `answer` entry — `none` when the entry is absent or not a
string, both of which fail the later membership test identically), or the
value is `null` or another non-dict, on which the inner `.get` raises
`AttributeError`. -/
inductive JsonFieldView where
  | missing
  | answerDict (answer : Option String)
  | notDict
deriving DecidableEq, Repr

/-- The first JSON value `extract_json_from_str` recovered: a dict carrying
the two fields the selector reads, or a non-dict value (array, string,
number, ...) on which already the outer `.get` raises `AttributeError`. -/
inductive ExtractedJson where
  | nonDictValue
  | dict (next_speaker : JsonFieldView) (instruction_or_question : JsonFieldView)
deriving DecidableEq, Repr

/-- Outcome of the `model_client.create` call plus JSON extraction inside
`_analyze_progress_ledger`: the call raised, or it returned a reply from which
`extract_json_from_str` recovered the given list of JSON values. -/
inductive LLMOutcome where
  | raisesException
  | reply (json_objects : List ExtractedJson)
deriving DecidableEq, Repr

/-- `progress_analysis.get('next_speaker', {}).get('answer')`
(orchestrator.py line 410, outside any `try`): `.error` is the uncaught
`AttributeError` raised on a non-dict JSON value or a null/non-dict
`next_speaker`. -/
def nextSpeakerAnswer : ExtractedJson → Except String (Option String)
  | .nonDictValue => .error "AttributeError: extracted JSON value is not a dict"
  | .dict next_speaker _ =>
    match next_speaker with
    | .missing => .ok none
    | .answerDict answer => .ok answer
    | .notDict => .error "AttributeError: next_speaker value is not a dict"

/-- `progress_analysis.get('instruction_or_question', {}).get('answer', '')`
(orchestrator.py line 411, also outside any `try`; it runs only when the
`next_speaker` chain did not raise). -/
def instructionAnswer : ExtractedJson → Except String String
  | .nonDictValue => .error "AttributeError: extracted JSON value is not a dict"
  | .dict _ instruction_or_question =>
    match instruction_or_question with
    | .missing => .ok ""
    | .answerDict answer => .ok (answer.getD "")
    | .notDict => .error "AttributeError: instruction_or_question value is not a dict"

/-- `_get_default_progress_analysis` (only the two fields the selector
reads); it builds genuine nested dicts with string answers.  The source
indexes `candidate_nodes[0]`; the `headD ""` only differs on an empty
candidate list, on which the source would raise and which
`_intelligent_node_selection` never passes in. -/
def defaultProgressAnalysis (candidate_nodes : List String) : ExtractedJson :=
  .dict (.answerDict (some (candidate_nodes.headD "")))
    (.answerDict (some "请继续执行你的专业任务"))

/-- `_analyze_progress_ledger`: first JSON value of the reply, or the default
analysis when the call raised or no JSON value was extracted (the `try`
inside `_analyze_progress_ledger` covers only the call and the extraction). -/
def analyzeProgressLedger (outcome : LLMOutcome) (candidate_nodes : List String) : ExtractedJson :=
  match outcome with
  | .raisesException => defaultProgressAnalysis candidate_nodes
  | .reply json_objects =>
    match json_objects with
    | [] => defaultProgressAnalysis candidate_nodes
    | o :: _ => o

/-- `_intelligent_node_selection`: `.ok none` on an empty candidate list, the
sole candidate when there is exactly one (the JSON chains never run there;
`_generate_specific_instruction` is assumed to return normally), and
otherwise both `.get` chains run in source order — an `AttributeError` from
either propagates uncaught (`.error`) — before the `next_speaker` answer is
validated against the candidates, falling back to `candidate_nodes[0]`. -/
def intelligentNodeSelection (outcome : LLMOutcome) (candidate_nodes : List String) :
    Except String (Option String) :=
  match candidate_nodes with
  | [] => .ok none
  | [selected_node] => .ok (some selected_node)
  | c1 :: c2 :: rest =>
    let progress_analysis := analyzeProgressLedger outcome (c1 :: c2 :: rest)
    match nextSpeakerAnswer progress_analysis with
    | .error e => .error e
    | .ok selected_node =>
      match instructionAnswer progress_analysis with
      | .error e => .error e
      | .ok _ =>
        match selected_node with
        | some s =>
          if (c1 :: c2 :: rest).contains s then .ok (some s) else .ok (some c1)
        | none => .ok (some c1)

/-! ## `_parse_test_output` (`src/memory/unit_test_memory_manager.py`) -/

/-- One `FAIL:`/`ERROR:` block collected by the parser. -/
structure TestFailure where
  test_name : String
  type : String
  details : List String
deriving DecidableEq, Repr

/-- The `current_section` marker ("failure" / "error"). -/
inductive FailSection where
  | failure
  | error
deriving DecidableEq, Repr

/-- Mutable state of the line loop of `_parse_test_output`: the accumulated
`parsed` fields plus `current_section` and `current_failure`. -/
structure ParseState where
  total_tests : Option Nat
  failures : List TestFailure
  errors : List TestFailure
  passed_tests : List String
  test_files_executed : List String
  execution_details : List String
  current_section : Option FailSection
  current_failure : Option TestFailure
deriving DecidableEq, Repr

/-- Initial `parsed` dictionary and loop variables. -/
def ParseState.init : ParseState :=
  { total_tests := none, failures := [], errors := [], passed_tests := [],
    test_files_executed := [], execution_details := [],
    current_section := none, current_failure := none }

/-- `re.findall(r'\d+', s)` followed by `int(...)` on each run of digits
(ASCII digits; the raw outputs scanned are ASCII). -/
def digitRunsAux : List Char → Option Nat → List Nat
  | [], none => []
  | [], some n => [n]
  | c :: cs, none =>
    if c.isDigit then digitRunsAux cs (some (c.toNat - 48)) else digitRunsAux cs none
  | c :: cs, some n =>
    if c.isDigit then digitRunsAux cs (some (n * 10 + (c.toNat - 48)))
    else n :: digitRunsAux cs none

def digitRuns (s : String) : List Nat := digitRunsAux s.toList none

/-- `line.split(":", 1)[1]`: everything after the first colon (`""` when the
line has no colon, a case the caller guards with `":" in line`). -/
def afterFirstColon (line : String) : String :=
  String.intercalate ":" ((pySplitChar (Char.ofNat 58) line).drop 1)

/-- The `test_name` stored for a header line:
`line.split(":", 1)[1].strip() if ":" in line else line`. -/
def headerTestName (line : String) : String :=
  if strContains line ":" then pyTrim (afterFirstColon line) else line

/-- Flush `current_failure` into `failures`/`errors` according to
`current_section` (run before a new header starts and once after the loop). -/
def flushCurrent (st : ParseState) : ParseState :=
  match st.current_failure with
  | none => st
  | some f =>
    match st.current_section with
    | some .failure => { st with failures := st.failures ++ [f] }
    | some .error => { st with errors := st.errors ++ [f] }
    | none => st

/-- The standalone summary `if` at the top of the loop body: on a line whose
lowercase form contains `"tests run"` or `"ran "`, store the first run of
digits (if any) as `total_tests`. -/
def processSummary (st : ParseState) (line : String) : ParseState :=
  { st with total_tests :=
      if (strContains (pyLower line) "tests run" || strContains (pyLower line) "ran ") &&
          !(digitRuns line).isEmpty then
        some ((digitRuns line).headD 0)
      else st.total_tests }

/-- The `if/elif` classification chain of the loop body, applied to the
stripped line. -/
def processMain (st : ParseState) (line : String) : ParseState :=
  if pyStartsWith line "FAIL:" || pyStartsWith line "ERROR:" then
    let st := flushCurrent st
    { st with
      current_failure := some
        { test_name := headerTestName line,
          type := if pyStartsWith line "FAIL:" then "FAIL" else "ERROR",
          details := [] },
      current_section := some (if pyStartsWith line "FAIL:" then .failure else .error) }
  else if st.current_section.isSome && line ≠ "" then
    if pyStartsWith line "AssertionError" || pyStartsWith line "Traceback" ||
        strContains line "File " then
      { st with current_failure :=
          st.current_failure.map (fun f => { f with details := f.details ++ [line] }) }
    else st
  else if strContains (pyLower line) "ok" && strContains (pyLower line) "test" then
    { st with passed_tests := st.passed_tests ++ [line] }
  else if pyStartsWith line "🧪 执行测试文件:" ||
      (strContains line "test_" && strContains line ".py") then
    { st with test_files_executed := st.test_files_executed ++ [line] }
  else if pyStartsWith line "📊" || pyStartsWith line "✅" || pyStartsWith line "❌" then
    { st with execution_details := st.execution_details ++ [line] }
  else st

/-- One iteration of the loop: strip the line, run the summary `if`, then the
classification chain. -/
def processLine (st : ParseState) (rawLine : String) : ParseState :=
  let line := pyTrim rawLine
  processMain (processSummary st line) line

/-- `test_summary` of the parsed result after the final update. -/
structure TestSummary where
  total_tests : Option Nat
  failures_count : Nat
  errors_count : Nat
  passed_count : Nat
  files_executed : Nat
deriving DecidableEq, Repr

/-- The dictionary returned by `_parse_test_output`. -/
structure ParsedTestOutput where
  test_summary : TestSummary
  failures : List TestFailure
  errors : List TestFailure
  passed_tests : List String
  test_files_executed : List String
  execution_details : List String
deriving DecidableEq, Repr

/-- `_parse_test_output`: split on newlines, run the line loop, flush the last
pending failure block, and attach the summary counts. -/
def parseTestOutput (raw_output : String) : ParsedTestOutput :=
  let lines := pySplitChar (Char.ofNat 10) raw_output
  let st := flushCurrent (lines.foldl processLine ParseState.init)
  { test_summary :=
      { total_tests := st.total_tests,
        failures_count := st.failures.length,
        errors_count := st.errors.length,
        passed_count := st.passed_tests.length,
        files_executed := st.test_files_executed.length },
    failures := st.failures,
    errors := st.errors,
    passed_tests := st.passed_tests,
    test_files_executed := st.test_files_executed,
    execution_details := st.execution_details }

/-- The failure block still pending in the loop state, as `flushCurrent` would
flush it into `failures`. -/
def pendingF (st : ParseState) : List TestFailure :=
  match st.current_failure with
  | none => []
  | some f =>
    match st.current_section with
    | some .failure => [f]
    | _ => []

/-- The failure block still pending in the loop state, as `flushCurrent` would
flush it into `errors`. -/
def pendingE (st : ParseState) : List TestFailure :=
  match st.current_failure with
  | none => []
  | some f =>
    match st.current_section with
    | some .error => [f]
    | _ => []

/-- All `FAIL:` names the state will contribute: flushed blocks then the
pending block. -/
def failureNames (st : ParseState) : List String :=
  st.failures.map TestFailure.test_name ++ (pendingF st).map TestFailure.test_name

/-- All `ERROR:` names the state will contribute. -/
def errorNames (st : ParseState) : List String :=
  st.errors.map TestFailure.test_name ++ (pendingE st).map TestFailure.test_name

/-- Specification-side reading of one raw line for the round-trip claim: the
name following the given header tag, when the stripped line starts with it. -/
def taggedLineName (tag rawLine : String) : Option String :=
  let line := pyTrim rawLine
  if pyStartsWith line tag then some (headerTestName line) else none

/-- Specification-side reading of the raw output for the round-trip claim: the
names that follow `FAIL:` (resp. `ERROR:`) headers, in their original order.
A header is a line that, once stripped, starts with the given tag; the name is
what follows the first colon, stripped. -/
def headerNamesIn (tag : String) (raw_output : String) : List String :=
  (pySplitChar (Char.ofNat 10) raw_output).filterMap (taggedLineName tag)

/-! ## `agent_communication_memory.py` -/

/-- `AgentMessage` dataclass (metadata omitted). -/
structure AgentMessage where
  from_agent : String
  to_agent : String
  message_type : String
  content : String
  timestamp : String
  message_id : String
deriving DecidableEq, Repr

/-- `AgentContext` dataclass (`relevant_info`/`outputs` kept as string maps). -/
structure AgentContext where
  agent_name : String
  current_task : String
  execution_state : String
  relevant_info : List (String × String)
  dependencies : List String
  outputs : List (String × String)
  timestamp : String

/-- In-memory caches of `AgentCommunicationMemory` (the vector-database mirror
is outside the embedding). -/
structure AgentCommunicationMemory where
  agent_contexts : List (String × AgentContext)
  message_history : List AgentMessage
  agent_dependencies : List (String × List String)

/-- `get_agent_context`: `self.agent_contexts.get(agent_name)`. -/
def getAgentContext (m : AgentCommunicationMemory) (agent_name : String) : Option AgentContext :=
  alLookup m.agent_contexts agent_name

/-- Stable insertion of a message into a list sorted by descending timestamp
(`messages.sort(key=..., reverse=True)`). -/
def insertByTimestampDesc (msg : AgentMessage) : List AgentMessage → List AgentMessage
  | [] => [msg]
  | m :: ms =>
    if m.timestamp < msg.timestamp then msg :: m :: ms
    else m :: insertByTimestampDesc msg ms

def sortByTimestampDesc (msgs : List AgentMessage) : List AgentMessage :=
  msgs.foldl (fun acc m => insertByTimestampDesc m acc) []

/-- `get_messages_for_agent`: filter by recipient, then by the optional type
and sender filters, sort by timestamp (newest first) and truncate. -/
def getMessagesForAgent (m : AgentCommunicationMemory) (agent_name : String)
    (message_type : Option String) (from_agent : Option String) (limit : Nat) :
    List AgentMessage :=
  let messages := m.message_history.filter (fun msg => msg.to_agent == agent_name)
  let messages :=
    match message_type with
    | some t => messages.filter (fun msg => msg.message_type == t)
    | none => messages
  let messages :=
    match from_agent with
    | some f => messages.filter (fun msg => msg.from_agent == f)
    | none => messages
  (sortByTimestampDesc messages).take limit

/-- `suggest_next_actions`. -/
def suggestNextActions (m : AgentCommunicationMemory) (agent_name : String) : List String :=
  match getAgentContext m agent_name with
  | none => ["开始执行任务"]
  | some current_context =>
    let suggestions : List String :=
      if !current_context.dependencies.isEmpty then
        let incomplete_deps := current_context.dependencies.filter (fun dep_agent =>
          match getAgentContext m dep_agent with
          | none => true
          | some dep_context => dep_context.execution_state ≠ "completed")
        if !incomplete_deps.isEmpty then
          ["等待依赖Agent完成: " ++ String.intercalate ", " incomplete_deps]
        else []
      else []
    let error_messages := getMessagesForAgent m agent_name (some "error") none 10
    let suggestions := suggestions ++ (if !error_messages.isEmpty then ["处理收到的错误信息"] else [])
    let context_messages := getMessagesForAgent m agent_name (some "context") none 10
    let suggestions := suggestions ++ (if !context_messages.isEmpty then ["利用收到的上下文信息"] else [])
    if !suggestions.isEmpty then suggestions else ["继续执行当前任务"]

/-- Concrete state for the C4 witness. -/
def C4st : OrchState :=
  { participants := ["UnitTestAgent", "RefactoringAgent"],
    max_retries := 2,
    progress := { node_states := [("UnitTestAgent", NodeState.completed)],
                  retry_counts := [("UnitTestAgent", 3)] },
    task_ledger := {} }

/-- Concrete successful refactor result for the C4 witness. -/
def C4res : ExecutionResult :=
  { success := true,
    analysis := { success := true, failure_reasons := [],
                  message_content := "REFACTORING_COMPLETE", has_completion_marker := true } }

/-- Concrete state for the C2 counterexample: the planner has exhausted its
retries. -/
def C2st : OrchState :=
  { participants :=
      ["CodePlanningAgent", "FunctionWritingAgent", "TestGenerationAgent",
       "UnitTestAgent", "RefactoringAgent", "CodeScanningAgent", "ProjectStructureAgent"],
    max_retries := 2,
    progress := { retry_counts := [("CodePlanningAgent", 3)] },
    task_ledger := {} }

/-- Concrete failed execution result for the C2 counterexample. -/
def C2res : ExecutionResult :=
  { success := false,
    analysis := { success := false, failure_reasons := [],
                  message_content := "", has_completion_marker := false } }

/-! # Claims -/

theorem alLookup_append {β : Type} (d e : List (String × β)) (k : String) :
    alLookup (d ++ e) k = ((alLookup d k).orElse (fun _ => alLookup e k)) := by
  induction d with
  | nil => simp [alLookup]
  | cons p d ih =>
    by_cases h : p.1 = k
    · simp [alLookup, h]
    · have hb : (p.1 == k) = false := beq_eq_false_iff_ne.mpr h
      simp [alLookup, hb, ih]

theorem alLookup_map_overwrite {β : Type} (k : String) (v : β) (d : List (String × β))
    (hany : d.any (fun p => p.1 == k) = true) :
    alLookup (d.map (fun p => if p.1 == k then (k, v) else p)) k = some v := by
  induction d with
  | nil => simp at hany
  | cons p d ih =>
    by_cases h : p.1 = k
    · have hb : (p.1 == k) = true := beq_iff_eq.mpr h
      simp [alLookup, hb]
    · have hb : (p.1 == k) = false := beq_eq_false_iff_ne.mpr h
      simp only [List.any_cons, hb, Bool.false_or] at hany
      simp only [List.map_cons, hb, Bool.false_eq_true, if_false]
      simp only [alLookup, hb, Bool.false_eq_true, if_false]
      exact ih hany

theorem alLookup_none_of_not_any {β : Type} (k : String) (d : List (String × β))
    (hany : d.any (fun p => p.1 == k) = false) :
    alLookup d k = none := by
  induction d with
  | nil => rfl
  | cons p d ih =>
    simp only [List.any_cons, Bool.or_eq_false_iff] at hany
    simp only [alLookup, hany.1, Bool.false_eq_true, if_false]
    exact ih hany.2

theorem alLookup_pyDictSet_self {β : Type} (d : List (String × β)) (k : String) (v : β) :
    alLookup (pyDictSet d k v) k = some v := by
  unfold pyDictSet
  split
  · exact alLookup_map_overwrite k v d (by assumption)
  · rename_i hany
    have hf : d.any (fun p => p.1 == k) = false := by
      cases hd : d.any (fun p => p.1 == k) with
      | true => exact absurd hd hany
      | false => rfl
    rw [alLookup_append, alLookup_none_of_not_any k d hf]
    simp [alLookup, Option.orElse]

theorem alLookup_map_overwrite_ne {β : Type} (k k' : String) (v : β) (d : List (String × β))
    (h : k' ≠ k) :
    alLookup (d.map (fun p => if p.1 == k then (k, v) else p)) k' = alLookup d k' := by
  induction d with
  | nil => rfl
  | cons p d ih =>
    by_cases h0 : p.1 = k
    · have hb : (p.1 == k) = true := beq_iff_eq.mpr h0
      have hbk : (k == k') = false := beq_eq_false_iff_ne.mpr (fun hh => h hh.symm)
      have hbp : (p.1 == k') = false := beq_eq_false_iff_ne.mpr (by rw [h0]; exact fun hh => h hh.symm)
      simp only [List.map_cons, hb, if_true, alLookup, hbk, hbp, Bool.false_eq_true, if_false]
      exact ih
    · have hb : (p.1 == k) = false := beq_eq_false_iff_ne.mpr h0
      by_cases h1 : p.1 = k'
      · have hb1 : (p.1 == k') = true := beq_iff_eq.mpr h1
        simp [alLookup, hb, hb1]
      · have hb1 : (p.1 == k') = false := beq_eq_false_iff_ne.mpr h1
        simp only [List.map_cons, hb, Bool.false_eq_true, if_false, alLookup, hb1]
        exact ih

theorem alLookup_pyDictSet_ne {β : Type} (d : List (String × β)) (k k' : String) (v : β)
    (h : k' ≠ k) :
    alLookup (pyDictSet d k v) k' = alLookup d k' := by
  have hb' : (k == k') = false := beq_eq_false_iff_ne.mpr (fun hh => h hh.symm)
  unfold pyDictSet
  split
  · exact alLookup_map_overwrite_ne k k' v d h
  · rw [alLookup_append]
    cases hl : alLookup d k' with
    | some w => simp [Option.orElse]
    | none => simp [Option.orElse, alLookup, hb']


/-- C8: after `set_project_config(name, main_file, test_file, base_dir)`,
`get_file_path("main")` returns `base_dir + "/" + main_file` and
`get_file_path("test")` returns `base_dir + "/" + test_file`; before any
`set_project_config` call both return the documented defaults. -/
theorem C8_set_project_config_paths :
    (∀ (tl : TaskLedger) (project_name main_file test_file base_dir : String),
      (tl.set_project_config project_name main_file test_file base_dir).get_file_path "main" =
        base_dir ++ "/" ++ main_file ∧
      (tl.set_project_config project_name main_file test_file base_dir).get_file_path "test" =
        base_dir ++ "/" ++ test_file) ∧
    TaskLedger.init.get_file_path "main" = "/Users/jabez/output/main.py" ∧
    TaskLedger.init.get_file_path "test" = "/Users/jabez/output/test_main.py" :=
  ⟨fun _ _ _ _ _ => ⟨rfl, rfl⟩, rfl, rfl⟩

/-- C5: a failed execution adds exactly 1 to `stall_count`, a successful one
replaces it with `max(0, stall_count - 1)`; the inner loop body only runs
while `stall_count < max_stalls`, so from any state with
`0 ≤ stall_count ≤ max_stalls` every observable state between driver steps,
including the final one, satisfies `0 ≤ stall_count ≤ max_stalls`. -/
theorem C5_stall_count_bounded (max_stalls stall_count : Int) (outcomes : List Bool)
    (h0 : 0 ≤ stall_count) (hle : stall_count ≤ max_stalls) :
    (∀ s : Int, stallAfterExecution s false = s + 1) ∧
    (∀ s : Int, stallAfterExecution s true = max 0 (s - 1)) ∧
    0 ≤ innerLoopStalls max_stalls stall_count outcomes ∧
    innerLoopStalls max_stalls stall_count outcomes ≤ max_stalls := by
  refine ⟨fun _ => rfl, fun _ => rfl, ?_⟩
  induction outcomes generalizing stall_count with
  | nil => exact ⟨h0, hle⟩
  | cons o os ih =>
    simp only [innerLoopStalls]
    split
    · rename_i hlt
      apply ih
      · cases o
        · simp only [stallAfterExecution, Bool.false_eq_true, if_false]; omega
        · simp only [stallAfterExecution, if_true]; exact le_max_left 0 _
      · cases o
        · simp only [stallAfterExecution, Bool.false_eq_true, if_false]; omega
        · simp only [stallAfterExecution, if_true]
          exact max_le (h0.trans hle) (by omega)
    · exact ⟨h0, hle⟩

/-- Witness for C5 at `max_stalls = 3`, `stall_count = 0` and a concrete
outcome trace. -/
theorem C5_stall_count_bounded_witness :
    0 ≤ innerLoopStalls 3 0 [false, false, true, false, false] ∧
    innerLoopStalls 3 0 [false, false, true, false, false] ≤ 3 :=
  (C5_stall_count_bounded 3 0 [false, false, true, false, false]
    (by decide) (by decide)).2.2

/-- C10: for an agent with no recorded context, `suggest_next_actions` returns
exactly the start-task suggestion, whatever messages are pending; in
particular the message-derived suggestions cannot appear for such an agent. -/
theorem C10_no_context_start_suggestion (m : AgentCommunicationMemory)
    (agent_name s : String)
    (h : alLookup m.agent_contexts agent_name = none) :
    suggestNextActions m agent_name = ["开始执行任务"] ∧
    (s ∈ suggestNextActions m agent_name →
      s ≠ "处理收到的错误信息" ∧ s ≠ "利用收到的上下文信息") := by
  have h1 : suggestNextActions m agent_name = ["开始执行任务"] := by
    unfold suggestNextActions getAgentContext
    rw [h]
  refine ⟨h1, ?_⟩
  intro hs
  rw [h1] at hs
  simp only [List.mem_singleton] at hs
  subst hs
  exact ⟨by decide, by decide⟩

/-- Witness for C10: empty context cache, one pending error message addressed
to the agent. -/
theorem C10_no_context_start_suggestion_witness :
    suggestNextActions
      ⟨[], [⟨"UnitTestAgent", "RefactoringAgent", "error", "boom", "t0", "id0"⟩], []⟩
      "RefactoringAgent" = ["开始执行任务"] :=
  (C10_no_context_start_suggestion
    ⟨[], [⟨"UnitTestAgent", "RefactoringAgent", "error", "boom", "t0", "id0"⟩], []⟩
    "RefactoringAgent" "" rfl).1

/-- C6: when the combined content carries no completion marker of the worker,
the analyzer reports success iff the combined content is longer than 50
characters; when a marker is present and the worker is not `UnitTestAgent`,
it reports success. -/
theorem C6_analyzer_marker_rules (node_name : String) (response : AgentResponse)
    (report : ReportFile) :
    ((analyzeExecutionResult node_name response report).has_completion_marker = false →
      ((analyzeExecutionResult node_name response report).success = true ↔
        50 < (combinedContent (responseAllContent response)).length)) ∧
    ((analyzeExecutionResult node_name response report).has_completion_marker = true →
      node_name ≠ "UnitTestAgent" →
      (analyzeExecutionResult node_name response report).success = true) := by
  unfold analyzeExecutionResult
  simp only
  constructor
  · intro hm
    rw [hm]
    simp only [Bool.false_eq_true, if_false]
    exact decide_eq_true_iff
  · intro hm hne
    rw [hm]
    have hb : (node_name == "UnitTestAgent") = false := beq_eq_false_iff_ne.mpr hne
    simp [hb]

/-- Witness for C6: a markerless short response analyzes as failure; a marked
response of a non-test worker analyzes as success. -/
theorem C6_analyzer_marker_rules_witness :
    ((analyzeExecutionResult "CodePlanningAgent" ⟨some "hello", []⟩ .absent).success = true ↔
      50 < (combinedContent (responseAllContent ⟨some "hello", []⟩)).length) ∧
    (analyzeExecutionResult "FunctionWritingAgent" ⟨some "CODING_COMPLETE", []⟩ .absent).success
      = true :=
  ⟨(C6_analyzer_marker_rules "CodePlanningAgent" ⟨some "hello", []⟩ .absent).1 (by decide),
   (C6_analyzer_marker_rules "FunctionWritingAgent" ⟨some "CODING_COMPLETE", []⟩ .absent).2
     (by decide) (by decide)⟩

/-- C1 (code bug): the spec requires `success = false` when the test report
records failures/errors, or when the report is missing and the combined
content mentions "failed"/"error"/"assertion"; in the source,
`failure_reasons.append(...)` runs before the local `failure_reasons = []`
binding exists, so both detection paths raise `UnboundLocalError`, the
branch's `except` swallows it and sets `success = True`.  Evaluating the
embedded code at the two failing inputs exhibits `success = true` with no
failure reason recorded. -/
theorem C1_unit_test_failures_swallowed :
    ((analyzeExecutionResult "UnitTestAgent"
        ⟨some "UNIT_TESTING_COMPLETE", []⟩ (.valid 1 0)).success = true ∧
     (analyzeExecutionResult "UnitTestAgent"
        ⟨some "UNIT_TESTING_COMPLETE", []⟩ (.valid 1 0)).failure_reasons = []) ∧
    ((analyzeExecutionResult "UnitTestAgent"
        ⟨some "2 tests FAILED. UNIT_TESTING_COMPLETE", []⟩ .absent).success = true ∧
     (analyzeExecutionResult "UnitTestAgent"
        ⟨some "2 tests FAILED. UNIT_TESTING_COMPLETE", []⟩ .absent).failure_reasons = []) := by
  decide

/-- C7 counterexample: with the two candidates named below and a reply whose
first extracted JSON object is `{"next_speaker": null}`, the inner `.get`
raises `AttributeError` outside any `try`, so the selector does not return a
member of the candidate list (it returns neither candidate) — refuting the
claim's universal membership guarantee. -/
theorem C7_crash_on_null_next_speaker :
    intelligentNodeSelection
        (.reply [ExtractedJson.dict JsonFieldView.notDict JsonFieldView.missing])
        ["CodePlanningAgent", "FunctionWritingAgent"]
      = Except.error "AttributeError: next_speaker value is not a dict" ∧
    intelligentNodeSelection
        (.reply [ExtractedJson.dict JsonFieldView.notDict JsonFieldView.missing])
        ["CodePlanningAgent", "FunctionWritingAgent"]
      ≠ Except.ok (some "CodePlanningAgent") ∧
    intelligentNodeSelection
        (.reply [ExtractedJson.dict JsonFieldView.notDict JsonFieldView.missing])
        ["CodePlanningAgent", "FunctionWritingAgent"]
      ≠ Except.ok (some "FunctionWritingAgent") := by
  have h0 : intelligentNodeSelection
      (.reply [ExtractedJson.dict JsonFieldView.notDict JsonFieldView.missing])
      ["CodePlanningAgent", "FunctionWritingAgent"]
      = Except.error "AttributeError: next_speaker value is not a dict" := rfl
  refine ⟨h0, ?_, ?_⟩
  · rw [h0]
    intro h
    cases h
  · rw [h0]
    intro h
    cases h

/-- C7 (amended): a single candidate is returned as-is; an LLM exception or an
empty JSON extraction yields the first candidate; whenever the first extracted
JSON value lets both uncaught `.get` chains succeed, the selector returns a
member of the list — falling back to the first candidate when the
`next_speaker` answer is missing or not a candidate; but when the first JSON
value is not a dict, or its `next_speaker` or `instruction_or_question` value
is null or another non-dict, the `AttributeError` propagates and the selector
returns no candidate. -/
theorem C7_selection_amended (c1 : String) (cs : List String) (outcome : LLMOutcome) :
    (cs = [] → intelligentNodeSelection outcome (c1 :: cs) = .ok (some c1)) ∧
    (outcome = .raisesException →
      intelligentNodeSelection outcome (c1 :: cs) = .ok (some c1)) ∧
    (outcome = .reply [] → intelligentNodeSelection outcome (c1 :: cs) = .ok (some c1)) ∧
    (∀ o rest a i, outcome = .reply (o :: rest) →
      nextSpeakerAnswer o = .ok a → instructionAnswer o = .ok i →
      (∃ n, intelligentNodeSelection outcome (c1 :: cs) = .ok (some n) ∧ n ∈ c1 :: cs) ∧
      ((∀ s, a = some s → (c1 :: cs).contains s = false) →
        intelligentNodeSelection outcome (c1 :: cs) = .ok (some c1))) ∧
    (∀ o rest, outcome = .reply (o :: rest) → cs ≠ [] →
      ((∃ e, nextSpeakerAnswer o = Except.error e) ∨
       (∃ e, instructionAnswer o = Except.error e)) →
      ∃ e, intelligentNodeSelection outcome (c1 :: cs) = Except.error e) := by
  cases cs with
  | nil =>
    refine ⟨fun _ => rfl, fun _ => rfl, fun _ => rfl, ?_, ?_⟩
    · intro o rest a i _ _ _
      exact ⟨⟨c1, rfl, List.mem_cons_self c1 []⟩, fun _ => rfl⟩
    · intro o rest _ hcs _
      exact absurd rfl hcs
  | cons c2 rest2 =>
    have hraises :
        intelligentNodeSelection .raisesException (c1 :: c2 :: rest2) = .ok (some c1) := by
      have h1 : intelligentNodeSelection .raisesException (c1 :: c2 :: rest2) =
          (if (c1 :: c2 :: rest2).contains c1 = true then Except.ok (some c1)
           else Except.ok (some c1)) := rfl
      rw [h1, ite_self]
    have hreplyNil :
        intelligentNodeSelection (.reply []) (c1 :: c2 :: rest2) = .ok (some c1) := by
      have h1 : intelligentNodeSelection (.reply []) (c1 :: c2 :: rest2) =
          (if (c1 :: c2 :: rest2).contains c1 = true then Except.ok (some c1)
           else Except.ok (some c1)) := rfl
      rw [h1, ite_self]
    have hstepo : ∀ (o : ExtractedJson) (rest : List ExtractedJson),
        intelligentNodeSelection (.reply (o :: rest)) (c1 :: c2 :: rest2) =
          (match nextSpeakerAnswer o with
           | .error e => .error e
           | .ok selected_node =>
             match instructionAnswer o with
             | .error e => .error e
             | .ok _ =>
               match selected_node with
               | some s =>
                 if (c1 :: c2 :: rest2).contains s = true then Except.ok (some s)
                 else Except.ok (some c1)
               | none => Except.ok (some c1)) := fun _ _ => rfl
    cases outcome with
    | raisesException =>
      refine ⟨?_, fun _ => hraises, ?_, ?_, ?_⟩
      · intro h; cases h
      · intro h; cases h
      · intro o rest a i h; cases h
      · intro o rest h; cases h
    | reply objs =>
      cases objs with
      | nil =>
        refine ⟨?_, ?_, fun _ => hreplyNil, ?_, ?_⟩
        · intro h; cases h
        · intro h; cases h
        · intro o rest a i h
          injection h with h2
          cases h2
        · intro o rest h
          injection h with h2
          cases h2
      | cons o rest =>
        refine ⟨?_, ?_, ?_, ?_, ?_⟩
        · intro h; cases h
        · intro h; cases h
        · intro h
          injection h with h2
          cases h2
        · intro o' rest' a i heq hns hiq
          injection heq with hlist
          injection hlist with ho hrest
          subst ho
          subst hrest
          constructor
          · cases a with
            | none =>
              refine ⟨c1, ?_, List.mem_cons_self c1 _⟩
              rw [hstepo o rest, hns, hiq]
            | some s =>
              cases hc : (c1 :: c2 :: rest2).contains s with
              | true =>
                refine ⟨s, ?_, List.mem_of_elem_eq_true hc⟩
                rw [hstepo o rest, hns, hiq]
                show (if (c1 :: c2 :: rest2).contains s = true then Except.ok (some s)
                    else Except.ok (some c1)) = Except.ok (some s)
                rw [if_pos hc]
              | false =>
                refine ⟨c1, ?_, List.mem_cons_self c1 _⟩
                rw [hstepo o rest, hns, hiq]
                show (if (c1 :: c2 :: rest2).contains s = true then Except.ok (some s)
                    else Except.ok (some c1)) = Except.ok (some c1)
                rw [if_neg (by rw [hc]; exact Bool.false_ne_true)]
          · intro hinv
            cases a with
            | none => rw [hstepo o rest, hns, hiq]
            | some s =>
              have hc := hinv s rfl
              rw [hstepo o rest, hns, hiq]
              show (if (c1 :: c2 :: rest2).contains s = true then Except.ok (some s)
                  else Except.ok (some c1)) = Except.ok (some c1)
              rw [if_neg (by rw [hc]; exact Bool.false_ne_true)]
        · intro o' rest' heq _ hbad
          injection heq with hlist
          injection hlist with ho hrest
          subst ho
          subst hrest
          rcases hbad with ⟨e, he⟩ | ⟨e, he⟩
          · exact ⟨e, by rw [hstepo o rest, he]⟩
          · cases hns : nextSpeakerAnswer o with
            | error e2 => exact ⟨e2, by rw [hstepo o rest, hns]⟩
            | ok a => exact ⟨e, by rw [hstepo o rest, hns, he]⟩

/-- Witness for C7 (amended): LLM exception with two candidates falls back to
the first candidate; a non-dict first JSON value makes the selector raise. -/
theorem C7_selection_amended_witness :
    intelligentNodeSelection .raisesException ["CodePlanningAgent", "FunctionWritingAgent"]
      = Except.ok (some "CodePlanningAgent") ∧
    (∃ e, intelligentNodeSelection (.reply [ExtractedJson.nonDictValue])
        ["CodePlanningAgent", "FunctionWritingAgent"] = Except.error e) :=
  ⟨(C7_selection_amended "CodePlanningAgent" ["FunctionWritingAgent"] .raisesException).2.1 rfl,
   (C7_selection_amended "CodePlanningAgent" ["FunctionWritingAgent"]
       (.reply [ExtractedJson.nonDictValue])).2.2.2.2 ExtractedJson.nonDictValue [] rfl
     (List.cons_ne_nil _ _)
     (Or.inl ⟨"AttributeError: extracted JSON value is not a dict", rfl⟩)⟩

theorem generalFlow_fst (st : OrchState) (c : String) (r : ExecutionResult) :
    (generalFlow st c r).1 = st := by
  unfold generalFlow
  split
  · split
    · rfl
    · show (if findAlternativeNodes c st.participants ≠ [] then
          (st, findAlternativeNodes c st.participants) else (st, normalFlowNext c)).1 = st
      split
      · rfl
      · rfl
  · rfl

/-- C3: when `UnitTestAgent` completes with a failed analysis whose content
carries one of the error keywords or whose failure-reason list is non-empty,
the router appends exactly one `error_history` entry carrying the analyzed
content as raw test output and routes to `[RefactoringAgent]`. -/
theorem C3_test_failure_routes_to_refactorer (st : OrchState) (res : ExecutionResult)
    (hlink : res.success = res.analysis.success)
    (hfail : res.analysis.success = false)
    (herr : hasTestErrors res.analysis = true) :
    (getNextExecutableNodes st "UnitTestAgent" res).2 = ["RefactoringAgent"] ∧
    (getNextExecutableNodes st "UnitTestAgent" res).1.task_ledger.error_history =
      st.task_ledger.error_history ++
        [{ source := "UnitTestAgent", errors := res.analysis.failure_reasons,
           test_output := res.analysis.message_content }] := by
  have h : res.success = false := hlink.trans hfail
  unfold getNextExecutableNodes
  simp [h, herr]

/-- Witness for C3: failing test result whose content mentions "FAILED". -/
theorem C3_test_failure_routes_to_refactorer_witness :
    (getNextExecutableNodes
        ⟨["UnitTestAgent", "RefactoringAgent"], 2, {}, {}⟩ "UnitTestAgent"
        ⟨false, ⟨false, [], "2 tests FAILED", false⟩⟩).2 = ["RefactoringAgent"] ∧
    (getNextExecutableNodes
        ⟨["UnitTestAgent", "RefactoringAgent"], 2, {}, {}⟩ "UnitTestAgent"
        ⟨false, ⟨false, [], "2 tests FAILED", false⟩⟩).1.task_ledger.error_history =
      ({} : TaskLedger).error_history ++
        [{ source := "UnitTestAgent", errors := [], test_output := "2 tests FAILED" }] :=
  C3_test_failure_routes_to_refactorer
    ⟨["UnitTestAgent", "RefactoringAgent"], 2, {}, {}⟩
    ⟨false, ⟨false, [], "2 tests FAILED", false⟩⟩ rfl rfl (by decide)

/-- Case analysis of the router's effect on `node_states`: it either leaves
them unchanged, or (exactly in the refactor-success branch) resets
`UnitTestAgent` to `not_started`. -/
theorem router_nodeStates_cases (st : OrchState) (c : String) (r : ExecutionResult) :
    (getNextExecutableNodes st c r).1.progress.node_states = st.progress.node_states ∨
    (c = "RefactoringAgent" ∧ r.success = true ∧
      (getNextExecutableNodes st c r).1.progress.node_states =
        pyDictSet st.progress.node_states "UnitTestAgent" NodeState.not_started) := by
  unfold getNextExecutableNodes
  split
  · split
    · left; rfl
    · split
      · left; rfl
      · left; rw [generalFlow_fst]
  · split
    · rename_i hcond
      rw [Bool.and_eq_true] at hcond
      right
      refine ⟨eq_of_beq hcond.1, hcond.2, ?_⟩
      split
      · rfl
      · rfl
    · split
      · left; rfl
      · left; rw [generalFlow_fst]

/-- Case analysis of the router's effect on `retry_counts`: unchanged, or the
`UnitTestAgent` entry reset to 0. -/
theorem router_retryCount_le (st : OrchState) (c : String) (r : ExecutionResult) (v : String) :
    (getNextExecutableNodes st c r).1.retryCount v ≤ st.retryCount v := by
  unfold getNextExecutableNodes
  split
  · split
    · exact le_refl _
    · split
      · exact le_refl _
      · rw [show ((generalFlow st c r).1.retryCount v = st.retryCount v) from
          congrArg (fun s => OrchState.retryCount s v) (generalFlow_fst st c r)]
  · split
    · split
      · rename_i hmem
        by_cases hv : v = "UnitTestAgent"
        · subst hv
          show pyGetD (pyDictSet st.progress.retry_counts "UnitTestAgent" 0) "UnitTestAgent" 0
            ≤ st.retryCount "UnitTestAgent"
          unfold pyGetD
          rw [alLookup_pyDictSet_self]
          exact Nat.zero_le _
        · show pyGetD (pyDictSet st.progress.retry_counts "UnitTestAgent" 0) v 0
            ≤ st.retryCount v
          unfold pyGetD
          rw [alLookup_pyDictSet_ne _ _ _ _ hv]
          exact le_refl _
      · exact le_refl _
    · split
      · exact le_refl _
      · rw [show ((generalFlow st c r).1.retryCount v = st.retryCount v) from
          congrArg (fun s => OrchState.retryCount s v) (generalFlow_fst st c r)]

/-- C4: on a successful `RefactoringAgent` completion the router resets
`retry_counts["UnitTestAgent"]` to 0 (as read back by `.get(_, 0)`), sets
`node_states["UnitTestAgent"]` to `NOT_STARTED` and returns
`["UnitTestAgent"]`; and among all the node-state-mutating operations of the
orchestrator, only this router rule can move a worker from `COMPLETED` to
`NOT_STARTED` (and that worker is `UnitTestAgent`). -/
theorem C4_refactor_success_resets_test_runner :
    (∀ (st : OrchState) (res : ExecutionResult), res.success = true →
      (getNextExecutableNodes st "RefactoringAgent" res).2 = ["UnitTestAgent"] ∧
      (getNextExecutableNodes st "RefactoringAgent" res).1.retryCount "UnitTestAgent" = 0 ∧
      alLookup (getNextExecutableNodes st "RefactoringAgent" res).1.progress.node_states
        "UnitTestAgent" = some NodeState.not_started) ∧
    (∀ (st : OrchState) (k : StepKind) (w : String),
      alLookup st.progress.node_states w = some NodeState.completed →
      alLookup (stepEffect st k).progress.node_states w = some NodeState.not_started →
      w = "UnitTestAgent" ∧
      ∃ c r, k = StepKind.route c r ∧ c = "RefactoringAgent" ∧ r.success = true) := by
  constructor
  · intro st res hres
    unfold getNextExecutableNodes
    simp only [hres, Bool.not_true, Bool.and_false, Bool.false_eq_true, if_false,
      Bool.and_true]
    rw [if_pos (by rfl)]
    refine ⟨rfl, ?_, ?_⟩
    · split
      · rename_i hmem
        show pyGetD (pyDictSet st.progress.retry_counts "UnitTestAgent" 0) "UnitTestAgent" 0 = 0
        unfold pyGetD
        rw [alLookup_pyDictSet_self]
        rfl
      · rename_i hmem
        show pyGetD st.progress.retry_counts "UnitTestAgent" 0 = 0
        unfold pyGetD
        have hf : st.progress.retry_counts.any (fun p => p.1 == "UnitTestAgent") = false := by
          cases hd : st.progress.retry_counts.any (fun p => p.1 == "UnitTestAgent") with
          | true => exact absurd hd hmem
          | false => rfl
        rw [alLookup_none_of_not_any _ _ hf]
        rfl
    · split
      · exact alLookup_pyDictSet_self _ _ _
      · exact alLookup_pyDictSet_self _ _ _
  · intro st k w h1 h2
    cases k with
    | markInProgress n =>
      by_cases hw : w = n
      · subst hw
        rw [show (stepEffect st (StepKind.markInProgress w)).progress.node_states =
              pyDictSet st.progress.node_states w NodeState.in_progress from rfl,
            alLookup_pyDictSet_self] at h2
        exact absurd h2 (by decide)
      · rw [show (stepEffect st (StepKind.markInProgress n)).progress.node_states =
              pyDictSet st.progress.node_states n NodeState.in_progress from rfl,
            alLookup_pyDictSet_ne _ _ _ _ hw, h1] at h2
        exact absurd h2 (by decide)
    | markCompleted n =>
      by_cases hw : w = n
      · subst hw
        rw [show (stepEffect st (StepKind.markCompleted w)).progress.node_states =
              pyDictSet st.progress.node_states w NodeState.completed from rfl,
            alLookup_pyDictSet_self] at h2
        exact absurd h2 (by decide)
      · rw [show (stepEffect st (StepKind.markCompleted n)).progress.node_states =
              pyDictSet st.progress.node_states n NodeState.completed from rfl,
            alLookup_pyDictSet_ne _ _ _ _ hw, h1] at h2
        exact absurd h2 (by decide)
    | markFailed n =>
      by_cases hw : w = n
      · subst hw
        rw [show (stepEffect st (StepKind.markFailed w)).progress.node_states =
              pyDictSet st.progress.node_states w NodeState.failed from rfl,
            alLookup_pyDictSet_self] at h2
        exact absurd h2 (by decide)
      · rw [show (stepEffect st (StepKind.markFailed n)).progress.node_states =
              pyDictSet st.progress.node_states n NodeState.failed from rfl,
            alLookup_pyDictSet_ne _ _ _ _ hw, h1] at h2
        exact absurd h2 (by decide)
    | route c r =>
      have hstep : (stepEffect st (StepKind.route c r)).progress.node_states =
          (getNextExecutableNodes st c r).1.progress.node_states := rfl
      rcases router_nodeStates_cases st c r with hsame | ⟨hc, hs, hns⟩
      · rw [hstep, hsame, h1] at h2
        exact absurd h2 (by decide)
      · by_cases hw : w = "UnitTestAgent"
        · exact ⟨hw, c, r, rfl, hc, hs⟩
        · rw [hstep, hns, alLookup_pyDictSet_ne _ _ _ _ hw, h1] at h2
          exact absurd h2 (by decide)

/-- Witness for C4 at a concrete completed test runner and a successful
refactor step. -/
theorem C4_refactor_success_resets_test_runner_witness :
    ((getNextExecutableNodes C4st "RefactoringAgent" C4res).2 = ["UnitTestAgent"] ∧
     (getNextExecutableNodes C4st "RefactoringAgent" C4res).1.retryCount "UnitTestAgent" = 0 ∧
     alLookup (getNextExecutableNodes C4st "RefactoringAgent" C4res).1.progress.node_states
       "UnitTestAgent" = some NodeState.not_started) ∧
    ("UnitTestAgent" = "UnitTestAgent" ∧
     ∃ c r, StepKind.route "RefactoringAgent" C4res = StepKind.route c r ∧
       c = "RefactoringAgent" ∧ r.success = true) :=
  ⟨(C4_refactor_success_resets_test_runner.1 C4st C4res rfl),
   (C4_refactor_success_resets_test_runner.2 C4st (StepKind.route "RefactoringAgent" C4res)
     "UnitTestAgent" (by decide) (by decide))⟩


/-- C2 counterexample: `CodePlanningAgent` fails with its retries exhausted;
its static alternatives table is empty, yet the router does not return that
empty table — it falls through to the normal-flow successor
`["FunctionWritingAgent"]`. -/
theorem C2_planner_exhausted_counterexample :
    C2res.success = false ∧
    C2st.max_retries < C2st.retryCount "CodePlanningAgent" ∧
    findAlternativeNodes "CodePlanningAgent" C2st.participants = [] ∧
    (getNextExecutableNodes C2st "CodePlanningAgent" C2res).2 = ["FunctionWritingAgent"] ∧
    (getNextExecutableNodes C2st "CodePlanningAgent" C2res).2 ≠
      findAlternativeNodes "CodePlanningAgent" C2st.participants := by
  decide

/-- The alternatives table never proposes the failed node itself. -/
theorem findAlternativeNodes_ne_self (w : String) (parts : List String) :
    findAlternativeNodes w parts ≠ [w] := by
  by_cases h1 : w = "FunctionWritingAgent"
  · subst h1
    unfold findAlternativeNodes
    simp only [beq_self_eq_true, if_true]
    split
    · decide
    · decide
  by_cases h2 : w = "TestGenerationAgent"
  · subst h2
    unfold findAlternativeNodes
    simp only [beq_self_eq_true, if_true]
    rw [if_neg (by decide)]
    split
    · decide
    · decide
  by_cases h3 : w = "UnitTestAgent"
  · subst h3
    unfold findAlternativeNodes
    simp only [beq_self_eq_true, if_true]
    rw [if_neg (by decide), if_neg (by decide)]
    split
    · decide
    · decide
  · unfold findAlternativeNodes
    rw [if_neg (by simp [beq_eq_false_iff_ne.mpr h1]),
        if_neg (by simp [beq_eq_false_iff_ne.mpr h2]),
        if_neg (by simp [beq_eq_false_iff_ne.mpr h3])]
    exact fun h => List.cons_ne_nil _ _ h.symm

/-- The normal-flow successor of a node is never that node itself. -/
theorem normalFlowNext_ne_self (w : String) : normalFlowNext w ≠ [w] := by
  by_cases h1 : w = "CodePlanningAgent"
  · subst h1; decide
  by_cases h2 : w = "FunctionWritingAgent"
  · subst h2; decide
  by_cases h3 : w = "TestGenerationAgent"
  · subst h3; decide
  by_cases h4 : w = "UnitTestAgent"
  · subst h4; decide
  by_cases h5 : w = "CodeScanningAgent"
  · subst h5; decide
  by_cases h6 : w = "ProjectStructureAgent"
  · subst h6; decide
  · have hnone : normal_flow_sequence.indexOf? w = none := by
      unfold normal_flow_sequence
      simp [List.indexOf?, List.findIdx?_cons,
        beq_eq_false_iff_ne.mpr (fun h => h1 h.symm),
        beq_eq_false_iff_ne.mpr (fun h => h2 h.symm),
        beq_eq_false_iff_ne.mpr (fun h => h3 h.symm),
        beq_eq_false_iff_ne.mpr (fun h => h4 h.symm),
        beq_eq_false_iff_ne.mpr (fun h => h5 h.symm),
        beq_eq_false_iff_ne.mpr (fun h => h6 h.symm)]
    unfold normalFlowNext
    rw [hnone]
    exact fun h => List.cons_ne_nil _ _ h.symm

/-- Under a failure with no applicable special branch, the router reduces to
its general part. -/
theorem router_general_under (st : OrchState) (w : String) (res : ExecutionResult)
    (hfail : res.success = false)
    (hut : w = "UnitTestAgent" →
      hasTestErrors res.analysis = false ∧ st.max_retries < st.retryCount w) :
    getNextExecutableNodes st w res = generalFlow st w res := by
  by_cases hw : w = "UnitTestAgent"
  · subst hw
    have hkw : hasTestErrors res.analysis = false := (hut rfl).1
    have hrt : ¬(st.retryCount "UnitTestAgent" ≤ st.max_retries) :=
      Nat.not_le.mpr (hut rfl).2
    unfold getNextExecutableNodes
    simp [hfail, hkw, hrt]
  · have hbw : (w == "UnitTestAgent") = false := beq_eq_false_iff_ne.mpr hw
    unfold getNextExecutableNodes
    simp [hbw, hfail]

/-- C2 (amended): the router never increases any retry count (so the bound
`retryCounts[w] ≤ maxRetries + 1` is preserved by every router step); and when
`w` completes unsuccessfully with `retryCounts[w] > maxRetries` — except for
`UnitTestAgent` with detected test errors, which routes to the refactorer —
the router stops retrying `w` and returns the static alternatives table
(restricted to the participants) when that table is non-empty, and the
normal-flow successor of `w` (empty when there is none) otherwise. -/
theorem C2_retries_exhausted_amended (st : OrchState) (w : String) (res : ExecutionResult)
    (hfail : res.success = false)
    (hretry : st.max_retries < st.retryCount w)
    (hspec : w = "UnitTestAgent" → hasTestErrors res.analysis = false) :
    (∀ (st' : OrchState) (c : String) (r : ExecutionResult) (v : String),
      st'.retryCount v ≤ st'.max_retries + 1 →
      (getNextExecutableNodes st' c r).1.retryCount v ≤ st'.max_retries + 1) ∧
    (getNextExecutableNodes st w res).2 ≠ [w] ∧
    (findAlternativeNodes w st.participants ≠ [] →
      (getNextExecutableNodes st w res).2 = findAlternativeNodes w st.participants) ∧
    (findAlternativeNodes w st.participants = [] →
      (getNextExecutableNodes st w res).2 = normalFlowNext w) := by
  have hred : getNextExecutableNodes st w res = generalFlow st w res :=
    router_general_under st w res hfail (fun h => ⟨hspec h, hretry⟩)
  have hrt : ¬(st.retryCount w ≤ st.max_retries) := Nat.not_le.mpr hretry
  have hgen : (generalFlow st w res).2 =
      (if findAlternativeNodes w st.participants ≠ [] then
        findAlternativeNodes w st.participants else normalFlowNext w) := by
    unfold generalFlow
    simp only [hfail, Bool.not_false, if_true, hrt, Bool.false_eq_true, if_false]
    show (if findAlternativeNodes w st.participants ≠ [] then
        (st, findAlternativeNodes w st.participants) else (st, normalFlowNext w)).2 = _
    split
    · rename_i h
      rfl
    · rename_i h
      rfl
  refine ⟨?_, ?_, ?_, ?_⟩
  · intro st' c r v hb
    exact le_trans (router_retryCount_le st' c r v) hb
  · rw [hred, hgen]
    split
    · exact findAlternativeNodes_ne_self w st.participants
    · exact normalFlowNext_ne_self w
  · intro hne
    rw [hred, hgen, if_pos hne]
  · intro he
    rw [hred, hgen, if_neg (by simp [he])]

/-- Witness for C2 (amended) at the concrete exhausted planner. -/
theorem C2_retries_exhausted_amended_witness :
    (getNextExecutableNodes C2st "CodePlanningAgent" C2res).2 =
      normalFlowNext "CodePlanningAgent" :=
  (C2_retries_exhausted_amended C2st "CodePlanningAgent" C2res rfl (by decide)
    (fun h => absurd h (by decide))).2.2.2 (by decide)


theorem flushCurrent_failures (st : ParseState) :
    (flushCurrent st).failures = st.failures ++ pendingF st := by
  unfold flushCurrent pendingF
  cases hf : st.current_failure with
  | none => simp
  | some f =>
    cases hs : st.current_section with
    | none => simp
    | some sec =>
      cases sec
      · simp
      · simp

theorem flushCurrent_errors (st : ParseState) :
    (flushCurrent st).errors = st.errors ++ pendingE st := by
  unfold flushCurrent pendingE
  cases hf : st.current_failure with
  | none => simp
  | some f =>
    cases hs : st.current_section with
    | none => simp
    | some sec =>
      cases sec
      · simp
      · simp

theorem pyStartsWith_FAIL_not_ERROR (line : String) :
    pyStartsWith line "FAIL:" = true → pyStartsWith line "ERROR:" = false := by
  unfold pyStartsWith
  have hfl : "FAIL:".toList = ['F', 'A', 'I', 'L', ':'] := rfl
  have hel : "ERROR:".toList = ['E', 'R', 'R', 'O', 'R', ':'] := rfl
  rw [hfl, hel]
  intro h
  cases hl : line.toList with
  | nil => rw [hl] at h; exact absurd h (by decide)
  | cons c cs =>
    rw [hl] at h
    simp only [List.isPrefixOf_cons₂, Bool.and_eq_true] at h
    have hc : c = 'F' := (eq_of_beq h.1).symm
    subst hc
    simp [List.isPrefixOf_cons₂, show ('E' == 'F') = false from by decide]


theorem processMain_names (st : ParseState) (line : String) :
    failureNames (processMain st line) =
      failureNames st ++ (if pyStartsWith line "FAIL:" then [headerTestName line] else []) ∧
    errorNames (processMain st line) =
      errorNames st ++ (if pyStartsWith line "ERROR:" then [headerTestName line] else []) := by
  cases hF : pyStartsWith line "FAIL:" with
  | true =>
    have hE : pyStartsWith line "ERROR:" = false := pyStartsWith_FAIL_not_ERROR line hF
    constructor
    · unfold processMain
      rw [hF, hE]
      simp only [Bool.true_or, if_true]
      unfold failureNames pendingF
      simp [flushCurrent_failures, pendingF, List.map_append, List.append_assoc]
    · unfold processMain
      rw [hF, hE]
      simp only [Bool.true_or, if_true]
      unfold errorNames pendingE
      simp [flushCurrent_errors, pendingE, List.map_append, List.append_assoc]
  | false =>
    cases hE : pyStartsWith line "ERROR:" with
    | true =>
      constructor
      · unfold processMain
        rw [hF, hE]
        simp only [Bool.false_or, if_true]
        unfold failureNames pendingF
        simp [flushCurrent_failures, pendingF, List.map_append, List.append_assoc]
      · unfold processMain
        rw [hF, hE]
        simp only [Bool.false_or, if_true]
        unfold errorNames pendingE
        simp [flushCurrent_errors, pendingE, List.map_append, List.append_assoc]
    | false =>
      have hpres : (processMain st line).failures = st.failures ∧
          (processMain st line).errors = st.errors ∧
          (pendingF (processMain st line)).map TestFailure.test_name =
            (pendingF st).map TestFailure.test_name ∧
          (pendingE (processMain st line)).map TestFailure.test_name =
            (pendingE st).map TestFailure.test_name := by
        unfold processMain
        rw [hF, hE]
        simp only [Bool.or_false, Bool.false_eq_true, if_false]
        split
        · split
          · refine ⟨rfl, rfl, ?_, ?_⟩
            · unfold pendingF
              cases hcf : st.current_failure with
              | none => simp
              | some f =>
                cases hcs : st.current_section with
                | none => simp
                | some sec => cases sec <;> simp
            · unfold pendingE
              cases hcf : st.current_failure with
              | none => simp
              | some f =>
                cases hcs : st.current_section with
                | none => simp
                | some sec => cases sec <;> simp
          · exact ⟨rfl, rfl, rfl, rfl⟩
        · split
          · exact ⟨rfl, rfl, rfl, rfl⟩
          · split
            · exact ⟨rfl, rfl, rfl, rfl⟩
            · split
              · exact ⟨rfl, rfl, rfl, rfl⟩
              · exact ⟨rfl, rfl, rfl, rfl⟩
      constructor
      · unfold failureNames
        rw [hpres.1, hpres.2.2.1]
        simp
      · unfold errorNames
        rw [hpres.2.1, hpres.2.2.2]
        simp


theorem toList_append_filterMap {α β : Type} (f : α → Option β) (a : α) (l : List α) :
    (f a).toList ++ l.filterMap f = (a :: l).filterMap f := by
  cases h : f a <;> simp [List.filterMap_cons, h]

theorem processLine_names (st : ParseState) (l : String) :
    failureNames (processLine st l) =
      failureNames st ++ (taggedLineName "FAIL:" l).toList ∧
    errorNames (processLine st l) =
      errorNames st ++ (taggedLineName "ERROR:" l).toList := by
  have h := processMain_names (processSummary st (pyTrim l)) (pyTrim l)
  have htF : (taggedLineName "FAIL:" l).toList =
      (if pyStartsWith (pyTrim l) "FAIL:" then [headerTestName (pyTrim l)] else []) := by
    show (if pyStartsWith (pyTrim l) "FAIL:" = true then some (headerTestName (pyTrim l))
        else none).toList =
      (if pyStartsWith (pyTrim l) "FAIL:" then [headerTestName (pyTrim l)] else [])
    split
    · rfl
    · rfl
  have htE : (taggedLineName "ERROR:" l).toList =
      (if pyStartsWith (pyTrim l) "ERROR:" then [headerTestName (pyTrim l)] else []) := by
    show (if pyStartsWith (pyTrim l) "ERROR:" = true then some (headerTestName (pyTrim l))
        else none).toList =
      (if pyStartsWith (pyTrim l) "ERROR:" then [headerTestName (pyTrim l)] else [])
    split
    · rfl
    · rfl
  constructor
  · rw [htF]
    exact h.1
  · rw [htE]
    exact h.2

theorem parse_fold_names (L : List String) : ∀ st : ParseState,
    ((flushCurrent (L.foldl processLine st)).failures.map TestFailure.test_name =
      failureNames st ++ L.filterMap (taggedLineName "FAIL:")) ∧
    ((flushCurrent (L.foldl processLine st)).errors.map TestFailure.test_name =
      errorNames st ++ L.filterMap (taggedLineName "ERROR:")) := by
  induction L with
  | nil =>
    intro st
    constructor
    · rw [List.foldl_nil, flushCurrent_failures, List.map_append, List.filterMap_nil,
        List.append_nil]
      rfl
    · rw [List.foldl_nil, flushCurrent_errors, List.map_append, List.filterMap_nil,
        List.append_nil]
      rfl
  | cons l L ih =>
    intro st
    constructor
    · rw [List.foldl_cons, (ih (processLine st l)).1, (processLine_names st l).1,
        List.append_assoc, toList_append_filterMap]
    · rw [List.foldl_cons, (ih (processLine st l)).2, (processLine_names st l).2,
        List.append_assoc, toList_append_filterMap]

/-- C9: parsing a raw unit-test output and reading back the `test_name` fields
of the parsed `failures` (resp. `errors`) yields exactly the names following
the `FAIL:` (resp. `ERROR:`) headers of the raw output, in their original
order. -/
theorem C9_parse_header_names_roundtrip (raw_output : String) :
    (parseTestOutput raw_output).failures.map TestFailure.test_name =
      headerNamesIn "FAIL:" raw_output ∧
    (parseTestOutput raw_output).errors.map TestFailure.test_name =
      headerNamesIn "ERROR:" raw_output := by
  have h := parse_fold_names (pySplitChar (Char.ofNat 10) raw_output) ParseState.init
  constructor
  · rw [show (parseTestOutput raw_output).failures =
        (flushCurrent ((pySplitChar (Char.ofNat 10) raw_output).foldl processLine
          ParseState.init)).failures from rfl]
    rw [h.1]
    rfl
  · rw [show (parseTestOutput raw_output).errors =
        (flushCurrent ((pySplitChar (Char.ofNat 10) raw_output).foldl processLine
          ParseState.init)).errors from rfl]
    rw [h.2]
    rfl

end MCPAgent